import Mathlib

/-
Verification development for the TRC reconciliation engine
(src/config.py, src/persistence.py, src/riven_client.py, src/rd_client.py,
src/monitor.py).  The Python code is shallowly embedded: pure fragments
become Lean functions; the stateful monitor operations become explicit
state-passing functions whose external effects (HTTP calls to the Library
and to the Debrid) are recorded in call traces, with the remote responses
supplied by oracle arguments.  Wall-clock instants are integers (seconds);
the float durations of the Python config are modelled as integers, and
torrent progress percentages as rationals.  The stdlib datetime parser
(datetime.fromisoformat) is abstracted as a `String → Option Int` argument
(`none` models a parse failure / raised exception).
-/

namespace TRC

/-- Candidate source scraped from the Library (riven_client.Stream). -/
structure Stream where
  infohash : String
  rawTitle : String
  rank : Int
  isCached : Bool := false
deriving DecidableEq

/-- Parent external IDs for seasons/episodes (riven_client.ParentIds). -/
structure ParentIds where
  imdbId : Option String := none
  tmdbId : Option String := none
  tvdbId : Option String := none
deriving DecidableEq

/-- Library media item (riven_client.MediaItem). -/
structure MediaItem where
  id : String
  title : String
  state : String
  type : String
  imdbId : Option String := none
  tmdbId : Option String := none
  tvdbId : Option String := none
  scrapedTimes : Nat := 0
  parentTitle : Option String := none
  seasonNumber : Option Nat := none
  episodeNumber : Option Nat := none
  parentIds : Option ParentIds := none
  airedAt : Option String := none
deriving DecidableEq

/-- Per-item control block (monitor.ItemTracker). -/
structure ItemTracker where
  itemId : String
  item : MediaItem
  retryCount : Nat := 0
  lastRetry : Option Int := none
  manualScrapeStarted : Bool := false
  streams : List Stream := []
  streamIndex : Nat := 0
deriving DecidableEq

/-- Per-in-flight-torrent control block (monitor.RDDownloadTracker). -/
structure RDDownloadTracker where
  torrentId : String
  infohash : String
  itemTracker : ItemTracker
  streamIndex : Nat
  startedAt : Int
  lastCheck : Option Int := none
deriving DecidableEq

/-- Debrid torrent record (rd_client.RDTorrent). -/
structure RDTorrent where
  id : String
  filename : String
  hash : String
  status : String
  progress : Rat
  bytes : Int
  seeders : Option Int := none
  added : Option String := none
deriving DecidableEq

/-- Relevant fields of config.Config, with the source's defaults.  Durations
are in seconds, as produced by the config's derived properties. -/
structure Config where
  maxRivenRetries : Nat := 3
  maxRdTorrents : Nat := 10
  maxActiveRdDownloads : Nat := 3
  skipRivenRetry : Bool := false
  retryIntervalSeconds : Int := 600
  rdStuckTorrentSeconds : Int := 86400
  rdMaxWaitSeconds : Int := 7200
  problemStates : List String := ["Failed", "Unknown"]
deriving DecidableEq

/-- TorrentStatus.is_failed (rd_client.py). -/
def statusIsFailed (s : String) : Bool :=
  s == "magnet_error" || s == "error" || s == "virus"

/-- TorrentStatus.is_stalled (rd_client.py). -/
def statusIsStalled (s : String) : Bool :=
  s == "dead"

/-- TorrentStatus.is_waiting_selection (rd_client.py). -/
def statusIsWaitingSelection (s : String) : Bool :=
  s == "waiting_files_selection"

/-- TorrentStatus.is_active (rd_client.py). -/
def statusIsActive (s : String) : Bool :=
  s == "magnet_conversion" || s == "queued" || s == "downloading" ||
    s == "compressing" || s == "uploading"

/-- TorrentStatus.is_complete (rd_client.py). -/
def statusIsComplete (s : String) : Bool :=
  s == "downloaded"

/-- Association-list lookup, modelling Python dict access by key. -/
def alGet {α : Type} (l : List (String × α)) (k : String) : Option α :=
  (l.find? (fun p => p.1 == k)).map (fun p => p.2)

/-- Association-list update, modelling Python `d[k] = v`: replaces the
binding in place when the key exists, otherwise appends (dicts preserve
insertion order). -/
def alInsert {α : Type} (l : List (String × α)) (k : String) (v : α) :
    List (String × α) :=
  if l.any (fun p => p.1 == k) then
    l.map (fun p => if p.1 == k then (k, v) else p)
  else l ++ [(k, v)]

/-- Association-list deletion, modelling Python `del d[k]` (no-op when the
key is absent, matching the guarded deletes in the source). -/
def alErase {α : Type} (l : List (String × α)) (k : String) :
    List (String × α) :=
  l.filter (fun p => p.1 != k)

/-- Set-like append used for the processed-items collection: Python keeps a
set in memory and an append-only list on disk, both deduplicated. -/
def listInsertNew (l : List String) (k : String) : List String :=
  if k ∈ l then l else l ++ [k]

/-- Persisted state document (persistence.StateManager._state): the tracker
and download records are kept as opaque serialized payload strings, since
their internal structure is irrelevant to the store's contract. -/
structure PersistState where
  itemTrackers : List (String × String)
  rdDownloads : List (String × String)
  processedItems : List String
deriving DecidableEq

/-- Helper for `serializeState`: renders a keyed section. -/
def serializeEntries (l : List (String × String)) : String :=
  l.foldl (fun acc kv => acc ++ " " ++ kv.1 ++ "=" ++ kv.2) ""

/-- Helper for `serializeState`: renders the processed-items list. -/
def serializeList (l : List String) : String :=
  l.foldl (fun acc k => acc ++ " " ++ k) ""

/-- Models json.dump of the state document in StateManager.save.  The exact
JSON syntax is abstracted into a simpler injective-by-section rendering; what
matters for the durability claims is that a serialized document is a single
nonempty string determined by the state. -/
def serializeState (s : PersistState) : String :=
  "doc item_trackers:" ++ serializeEntries s.itemTrackers ++
    " rd_downloads:" ++ serializeEntries s.rdDownloads ++
    " processed_items:" ++ serializeList s.processedItems

/-- File-system effects that StateManager.save performs on the state file.
`openTrunc` is `open(self.state_file, "w")` (truncates the file on open),
`writeAll` is the json.dump body, `closeFile` the context-manager close. -/
inductive FsOp
  | openTrunc
  | writeAll (content : String)
  | closeFile
deriving DecidableEq

/-- Content of the state file after executing a sequence of file operations,
starting from `cur`.  A crash during a save is modelled by executing only a
prefix of the operation list. -/
def fileAfterOps : String → List FsOp → String
  | cur, [] => cur
  | _, FsOp.openTrunc :: rest => fileAfterOps "" rest
  | cur, FsOp.writeAll c :: rest => fileAfterOps (cur ++ c) rest
  | cur, FsOp.closeFile :: rest => fileAfterOps cur rest

/-- StateManager.save: opens the state file in truncate mode and writes the
serialized document in place.  There is no temp file and no rename. -/
def saveOps (s : PersistState) : List FsOp :=
  [FsOp.openTrunc, FsOp.writeAll (serializeState s), FsOp.closeFile]

/-- A save is atomic (in the write-to-temp + rename sense the spec asks for)
when a crash at any point leaves either the previous document or the new one
in place, never anything else. -/
def atomicOps (oldC newC : String) (ops : List FsOp) : Prop :=
  ∀ n : Nat, fileAfterOps oldC (ops.take n) = oldC ∨
    fileAfterOps oldC (ops.take n) = newC

/-- StateManager.set_item_tracker: updates the section and saves. -/
def setItemTracker (s : PersistState) (k v : String) :
    PersistState × List FsOp :=
  let s2 : PersistState := { s with itemTrackers := alInsert s.itemTrackers k v }
  (s2, saveOps s2)

/-- StateManager.remove_item_tracker: deletes the key and saves, but only
when the key was present. -/
def removeItemTracker (s : PersistState) (k : String) :
    PersistState × List FsOp :=
  if (alGet s.itemTrackers k).isSome then
    let s2 : PersistState := { s with itemTrackers := alErase s.itemTrackers k }
    (s2, saveOps s2)
  else (s, [])

/-- StateManager.set_rd_download: updates the section and saves. -/
def setRdDownload (s : PersistState) (k v : String) :
    PersistState × List FsOp :=
  let s2 : PersistState := { s with rdDownloads := alInsert s.rdDownloads k v }
  (s2, saveOps s2)

/-- StateManager.remove_rd_download: deletes the key and saves, but only
when the key was present. -/
def removeRdDownload (s : PersistState) (k : String) :
    PersistState × List FsOp :=
  if (alGet s.rdDownloads k).isSome then
    let s2 : PersistState := { s with rdDownloads := alErase s.rdDownloads k }
    (s2, saveOps s2)
  else (s, [])

/-- StateManager.add_processed_item: appends and saves when the key is new;
otherwise does nothing. -/
def addProcessedItem (s : PersistState) (k : String) :
    PersistState × List FsOp :=
  if k ∈ s.processedItems then (s, [])
  else
    let s2 : PersistState := { s with processedItems := s.processedItems ++ [k] }
    (s2, saveOps s2)

/-- The string preprocessing MediaItem.is_released applies to aired_at
before datetime.fromisoformat: `aired_at.replace(" ", "T").split(".")[0]`.
Implemented over the character list so that it evaluates by kernel
reduction. -/
def airedTransform (s : String) : String :=
  ⟨(s.data.map (fun c => if c = ' ' then 'T' else c)).takeWhile
    (fun c => c != '.')⟩

/-- MediaItem.is_released (riven_client.py): with no aired_at the item is
assumed released; an unparseable timestamp (parser returns none, modelling
the caught ValueError/TypeError) is also treated as released; otherwise the
item is released iff its aired time is not after `now`. -/
def isReleased (parseIso : String → Option Int) (now : Int)
    (item : MediaItem) : Bool :=
  match item.airedAt with
  | none => true
  | some s =>
    match parseIso (airedTransform s) with
    | none => true
    | some t => decide (t ≤ now)

/-- Library adapter calls the engine can issue (riven_client.RivenClient). -/
inductive RivenCall
  | scrapeItem (tmdbId tvdbId imdbId : Option String) (mediaType : String)
  | removeItem (id : String)
  | addItem (tmdbId tvdbId : Option String) (mediaType : String)
  | retryItem (id : String)
  | getItemByIds (tmdbId tvdbId : Option String)
deriving DecidableEq

/-- Debrid adapter calls the engine can issue (rd_client.RealDebridClient). -/
inductive RDCall
  | addMagnet (magnet : String)
  | selectFiles (id files : String)
  | deleteTorrent (id : String)
  | getTorrentInfo (id : String)
deriving DecidableEq

/-- Python str.lower, used on infohashes in _monitor_rd_downloads. -/
def strLower (s : String) : String :=
  ⟨s.data.map Char.toLower⟩

/-- Python str.startswith, used on pseudo item ids in monitor.py. -/
def strStartsWith (s pat : String) : Bool :=
  pat.data.isPrefixOf s.data

/-- Lexicographic order on (tracked, progress) pairs: Python's tuple
comparison used by the `sort_key` in _enforce_max_active_torrents. -/
def lexLe (a b : Nat × Rat) : Prop :=
  a.1 < b.1 ∨ (a.1 = b.1 ∧ a.2 ≤ b.2)

instance : DecidableRel lexLe := fun a b => by
  unfold lexLe
  infer_instance

/-- The `sort_key` closure of _enforce_max_active_torrents: keep tracked
torrents and higher progress for last (ascending sort deletes the head). -/
def torrentSortKey (trackedIds : List String) (t : RDTorrent) : Nat × Rat :=
  (if t.id ∈ trackedIds then 1 else 0, t.progress)

/-- Comparison relation the cap-enforcement sort uses on torrents. -/
def cleanupKeyLe (trackedIds : List String) (a b : RDTorrent) : Prop :=
  lexLe (torrentSortKey trackedIds a) (torrentSortKey trackedIds b)

instance (trackedIds : List String) : DecidableRel (cleanupKeyLe trackedIds) :=
  fun a b => by
    unfold cleanupKeyLe
    infer_instance

/-- TRCMonitor._enforce_max_active_torrents: filters the fetched torrent
list to the active ones and, when the cap is exceeded, deletes the excess
lowest-priority torrents (stable ascending sort on (tracked, progress), as
Python's list.sort with that key).  Returns the torrents it deletes, in
deletion order. -/
def enforceMaxActiveTorrents (cfg : Config) (trackedIds : List String)
    (allTorrents : List RDTorrent) : List RDTorrent :=
  let activeTorrents := allTorrents.filter (fun t => statusIsActive t.status)
  if activeTorrents.length ≤ cfg.maxActiveRdDownloads then []
  else
    let sortedActive := activeTorrents.insertionSort (cleanupKeyLe trackedIds)
    sortedActive.take (activeTorrents.length - cfg.maxActiveRdDownloads)

/-- Age computation shared by the orphan and stuck rules of
_cleanup_rd_torrents: parse torrent.added (none models both a missing field
and a parse exception) and subtract from `now`. -/
def parseAddedAge (parseAdded : String → Option Int) (now : Int)
    (added : Option String) : Option Int :=
  match added with
  | none => none
  | some a =>
    match parseAdded a with
    | none => none
    | some t => some (now - t)

/-- The per-torrent deletion decision of TRCMonitor._cleanup_rd_torrents
(the sweep that runs before cap enforcement): failed and dead torrents are
deleted outright; waiting-selection torrents are deleted only when untracked
and older than one hour; low-progress active torrents are deleted only when
untracked and older than the stuck threshold. -/
def cleanupShouldDelete (cfg : Config) (parseAdded : String → Option Int)
    (now : Int) (trackedIds : List String) (t : RDTorrent) : Bool :=
  if statusIsFailed t.status then true
  else if statusIsStalled t.status then true
  else if statusIsWaitingSelection t.status then
    if t.id ∈ trackedIds then false
    else
      match parseAddedAge parseAdded now t.added with
      | none => false
      | some age => decide (age > 3600)
  else if statusIsActive t.status && decide (t.progress < 5) then
    if t.id ∈ trackedIds then false
    else
      match parseAddedAge parseAdded now t.added with
      | none => false
      | some age => decide (age > cfg.rdStuckTorrentSeconds)
  else false

/-- The media-type translation used throughout monitor.py:
`"movie" if item.type == "movie" else "show"`. -/
def mediaTypeOf (item : MediaItem) : String :=
  if item.type == "movie" then "movie" else "show"

/-- The scrape identifiers chosen by the completion handler of
_monitor_rd_downloads: parent external ids for seasons/episodes (when
available), otherwise the item's own. -/
def scrapeIdsOf (item : MediaItem) : Option String × Option String :=
  if item.type == "episode" || item.type == "season" then
    match item.parentIds with
    | some p => (p.tmdbId, p.tvdbId)
    | none => (item.tmdbId, item.tvdbId)
  else (item.tmdbId, item.tvdbId)

/-- Descending-rank relation of the scrape-result sort in
_start_manual_scrape (`sorted(..., key=rank, reverse=True)`, which is
stable). -/
def rankGe (a b : Stream) : Prop :=
  b.rank ≤ a.rank

instance : DecidableRel rankGe := fun a b => by
  unfold rankGe
  infer_instance

/-- The in-memory indices the problem-scan loop reads and writes: the item
trackers dictionary and the processed-items set of TRCMonitor.  The state
store mirrors every mutation (each set_item_tracker / add_processed_item in
the source), so this one structure stands for both.  -/
structure ScanState where
  itemTrackers : List (String × ItemTracker)
  processedItems : List String
deriving DecidableEq

/-- Remote responses consumed during one item-handling call: outcome of
riven.remove_item / riven.add_item, and of riven.scrape_item (none models a
raised exception, some the values of the returned id-to-stream dict in
iteration order). -/
structure ScanOracle where
  removeOk : Bool := true
  addOk : Bool := true
  scrapeResult : Option (List Stream) := none
deriving DecidableEq

/-- Result of one problem-scan handling call: updated state plus the trace
of Library calls issued. -/
structure ScanResult where
  state : ScanState
  calls : List RivenCall
deriving DecidableEq

/-- TRCMonitor._start_manual_scrape.  Sets manual_scrape_started and
persists the tracker first; returns early when the item is already in the
processed set; otherwise scrapes, sorts the streams by rank descending,
truncates to max_rd_torrents and resets stream_index to 0.  An empty result
or a scrape exception records the item as processed.  (Its final
_add_streams_to_rd is just a trigger of the global slot filling, modelled
separately as fillRdSlots.)  The tracker is written back under its map key
`tracker.itemId`, which in every creation path equals `tracker.item.id`;
Python mutates the shared object in place. -/
def startManualScrape (cfg : Config) (o : ScanOracle) (st : ScanState)
    (tracker : ItemTracker) : ScanResult :=
  let item := tracker.item
  let tr1 : ItemTracker := { tracker with manualScrapeStarted := true }
  let st1 : ScanState :=
    { st with itemTrackers := alInsert st.itemTrackers tracker.itemId tr1 }
  if item.id ∈ st.processedItems then ⟨st1, []⟩
  else
    let scrapeCall :=
      RivenCall.scrapeItem item.tmdbId item.tvdbId item.imdbId
        (mediaTypeOf item)
    match o.scrapeResult with
    | none =>
      ⟨{ st1 with processedItems := listInsertNew st1.processedItems item.id },
        [scrapeCall]⟩
    | some streams =>
      let sortedStreams := (streams.insertionSort rankGe).take cfg.maxRdTorrents
      if sortedStreams.isEmpty then
        ⟨{ st1 with
            processedItems := listInsertNew st1.processedItems item.id },
          [scrapeCall]⟩
      else
        let tr2 : ItemTracker :=
          { tr1 with streams := sortedStreams, streamIndex := 0 }
        ⟨{ st1 with
            itemTrackers := alInsert st1.itemTrackers tracker.itemId tr2 },
          [scrapeCall]⟩

/-- The retry-interval gate in _handle_problem_item and
_handle_season_episode: `last_retry is None or (now - last_retry) >
retry_interval_seconds`. -/
def retryDue (now : Int) (tracker : ItemTracker) (cfg : Config) : Bool :=
  match tracker.lastRetry with
  | none => true
  | some t => decide ((now - t) > cfg.retryIntervalSeconds)

/-- TRCMonitor._handle_problem_item.  Drops the tracker when its stored item
state has left the problem set; jumps to the manual scrape when configured
to skip retries or when retries are exhausted; otherwise, when the retry
interval has elapsed, performs remove_item followed (only on success) by
add_item, incrementing retry_count only when both succeed. -/
def handleProblemItem (cfg : Config) (now : Int) (o : ScanOracle)
    (st : ScanState) (tracker : ItemTracker) : ScanResult :=
  let item := tracker.item
  if item.state ∉ cfg.problemStates then
    ⟨{ st with itemTrackers := alErase st.itemTrackers item.id }, []⟩
  else if cfg.skipRivenRetry then
    if tracker.manualScrapeStarted then ⟨st, []⟩
    else startManualScrape cfg o st tracker
  else if cfg.maxRivenRetries ≤ tracker.retryCount then
    if tracker.manualScrapeStarted then ⟨st, []⟩
    else startManualScrape cfg o st tracker
  else if retryDue now tracker cfg then
    if o.removeOk then
      if o.addOk then
        let tr2 : ItemTracker :=
          { tracker with retryCount := tracker.retryCount + 1,
                         lastRetry := some now }
        ⟨{ st with itemTrackers := alInsert st.itemTrackers tracker.itemId tr2 },
          [RivenCall.removeItem item.id,
            RivenCall.addItem item.tmdbId item.tvdbId (mediaTypeOf item)]⟩
      else
        ⟨st, [RivenCall.removeItem item.id,
          RivenCall.addItem item.tmdbId item.tvdbId (mediaTypeOf item)]⟩
    else
      ⟨st, [RivenCall.removeItem item.id]⟩
  else ⟨st, []⟩

/-- Python f-string rendering of an optional id inside the pseudo parent
key (None renders as the literal string None). -/
def optIdStr (o : Option String) : String :=
  o.getD "None"

/-- The pseudo parent-show key `tmdb:<t>|tvdb:<v>` built in
_handle_season_episode. -/
def parentKeyOf (ptmdb ptvdb : Option String) : String :=
  "tmdb:" ++ optIdStr ptmdb ++ "|tvdb:" ++ optIdStr ptvdb

/-- Python `title.split()[0]` as used for the pseudo item's fallback title
(whitespace split, first field; the source would raise on an all-space
title, here that corner renders the empty string). -/
def firstWordOf (s : String) : String :=
  ⟨(s.data.dropWhile (fun c => c == ' ')).takeWhile (fun c => c != ' ')⟩

/-- Result of handling one scanned item: updated state, updated
parent_shows_queued set of the scan cycle, and the Library calls issued. -/
structure ScanItemResult where
  state : ScanState
  queued : List String
  calls : List RivenCall
deriving DecidableEq

/-- TRCMonitor._handle_season_episode.  Retries the parent show of a failed
season/episode: skips items with no parent external ids and parents already
queued this cycle; creates a pseudo-tracker keyed by the parent key when
none exists; then either starts the manual scrape (skip configured or
retries exhausted) or, when the retry interval has elapsed, increments
retry_count and issues add_item for the parent show (no remove). -/
def handleSeasonEpisode (cfg : Config) (now : Int) (o : ScanOracle)
    (st : ScanState) (queued : List String) (item : MediaItem) :
    ScanItemResult :=
  let pids := item.parentIds
  let ptmdb := match pids with
    | some p => p.tmdbId
    | none => none
  let ptvdb := match pids with
    | some p => p.tvdbId
    | none => none
  let pimdb := match pids with
    | some p => p.imdbId
    | none => none
  if ptmdb = none ∧ ptvdb = none then ⟨st, queued, []⟩
  else
    let parentKey := parentKeyOf ptmdb ptvdb
    if parentKey ∈ queued then ⟨st, queued, []⟩
    else
      let queued2 := queued ++ [parentKey]
      let st1 : ScanState :=
        if (alGet st.itemTrackers parentKey).isSome then st
        else
          let parentItem : MediaItem :=
            { id := parentKey,
              title := item.parentTitle.getD (firstWordOf item.title),
              type := "show", state := item.state, tmdbId := ptmdb,
              tvdbId := ptvdb, imdbId := pimdb, parentIds := none,
              airedAt := item.airedAt }
          { st with itemTrackers :=
              st.itemTrackers ++
                [(parentKey, { itemId := parentKey, item := parentItem })] }
      match alGet st1.itemTrackers parentKey with
      | none => ⟨st1, queued2, []⟩
      | some tracker =>
        if cfg.skipRivenRetry then
          if tracker.manualScrapeStarted then ⟨st1, queued2, []⟩
          else
            let r := startManualScrape cfg o st1 tracker
            ⟨r.state, queued2, r.calls⟩
        else if cfg.maxRivenRetries ≤ tracker.retryCount then
          if tracker.manualScrapeStarted then ⟨st1, queued2, []⟩
          else
            let r := startManualScrape cfg o st1 tracker
            ⟨r.state, queued2, r.calls⟩
        else if retryDue now tracker cfg then
          let tr2 : ItemTracker :=
            { tracker with retryCount := tracker.retryCount + 1,
                           lastRetry := some now }
          ⟨{ st1 with itemTrackers := alInsert st1.itemTrackers parentKey tr2 },
            queued2, [RivenCall.addItem ptmdb ptvdb "show"]⟩
        else ⟨st1, queued2, []⟩

/-- The per-item body of TRCMonitor._check_problem_items: skip unreleased
items, hand seasons/episodes to the parent-show path, and create-or-reuse a
tracker before _handle_problem_item for movies and shows. -/
def processOneItem (cfg : Config) (parseIso : String → Option Int)
    (now : Int) (o : ScanOracle) (st : ScanState) (queued : List String)
    (item : MediaItem) : ScanItemResult :=
  if isReleased parseIso now item then
    if item.type == "season" || item.type == "episode" then
      handleSeasonEpisode cfg now o st queued item
    else
      let st1 : ScanState :=
        if (alGet st.itemTrackers item.id).isSome then st
        else
          { st with itemTrackers :=
              st.itemTrackers ++ [(item.id, { itemId := item.id, item := item })] }
      match alGet st1.itemTrackers item.id with
      | none => ⟨st1, queued, []⟩
      | some tracker =>
        let r := handleProblemItem cfg now o st1 tracker
        ⟨r.state, queued, r.calls⟩
  else ⟨st, queued, []⟩

/-- TRCMonitor._wait_for_file_selection.  `polls` is the stream of
get_torrent_info responses (a missing entry or `none` models a raised
exception, which the source turns into False).  The source checks every two
seconds for max_wait=30 seconds, i.e. fuel 15.  waiting_selection, complete
and active torrents all proceed; failed and dead torrents abort. -/
def waitForFileSelection (polls : List (Option RDTorrent)) :
    Nat → Nat → Bool
  | 0, _ => false
  | fuel + 1, i =>
    match polls.getD i none with
    | none => false
    | some t =>
      if statusIsWaitingSelection t.status then true
      else if statusIsFailed t.status || statusIsStalled t.status then false
      else if statusIsComplete t.status then true
      else if statusIsActive t.status then true
      else waitForFileSelection polls fuel (i + 1)

/-- Outcome of rd.add_magnet: a response dict whose id may be missing, a
ContentInfringementError, or any other exception. -/
inductive AddMagnetOutcome
  | ok (torrentId : Option String)
  | infringementErr
  | otherErr
deriving DecidableEq

/-- Remote responses consumed by one _try_add_one_stream attempt. -/
structure TryAddOracle where
  addMagnet : AddMagnetOutcome := AddMagnetOutcome.otherErr
  polls : List (Option RDTorrent) := []
  selectOk : Bool := true
deriving DecidableEq

/-- Result of one _try_add_one_stream attempt: the rd_downloads map, the
mutated tracker (persisted by the source on every exit path past the
guard), the returned success flag, and the Debrid calls issued. -/
structure TryAddResult where
  rdDownloads : List (String × RDDownloadTracker)
  tracker : ItemTracker
  success : Bool
  rdCalls : List RDCall
deriving DecidableEq

/-- TRCMonitor._try_add_one_stream.  Returns immediately (without touching
stream_index) when the index is at or past the end of the candidate list;
otherwise adds the magnet for the current candidate, waits for file
selection, selects all files, and on success inserts a new download tracker
into rd_downloads.  Every non-guard path increments stream_index.  A
ContentInfringementError or other exception from add_magnet just skips;
failed selection or failed setup deletes the torrent. -/
def tryAddOneStream (o : TryAddOracle) (now : Int)
    (rdDownloads : List (String × RDDownloadTracker))
    (tracker : ItemTracker) : TryAddResult :=
  if tracker.streams.length ≤ tracker.streamIndex then
    ⟨rdDownloads, tracker, false, []⟩
  else
    match tracker.streams.get? tracker.streamIndex with
    | none => ⟨rdDownloads, tracker, false, []⟩
    | some stream =>
      let magnet := "magnet:?xt=urn:btih:" ++ stream.infohash
      let addCall := RDCall.addMagnet magnet
      let step : List (String × RDDownloadTracker) × Bool × List RDCall :=
        match o.addMagnet with
        | AddMagnetOutcome.ok none => (rdDownloads, false, [addCall])
        | AddMagnetOutcome.ok (some tid) =>
          if waitForFileSelection o.polls 15 0 then
            if o.selectOk then
              let download : RDDownloadTracker :=
                { torrentId := tid, infohash := stream.infohash,
                  itemTracker := tracker,
                  streamIndex := tracker.streamIndex, startedAt := now }
              (alInsert rdDownloads tid download, true,
                [addCall, RDCall.selectFiles tid "all"])
            else
              (rdDownloads, false,
                [addCall, RDCall.selectFiles tid "all",
                  RDCall.deleteTorrent tid])
          else
            (rdDownloads, false, [addCall, RDCall.deleteTorrent tid])
        | AddMagnetOutcome.infringementErr => (rdDownloads, false, [addCall])
        | AddMagnetOutcome.otherErr => (rdDownloads, false, [addCall])
      ⟨step.1, { tracker with streamIndex := tracker.streamIndex + 1 },
        step.2.1, step.2.2⟩

/-- The engine's shared in-memory indices (TRCMonitor instance state). -/
structure EngineState where
  itemTrackers : List (String × ItemTracker)
  rdDownloads : List (String × RDDownloadTracker)
  processedItems : List String
  rrIndex : Nat
deriving DecidableEq

/-- The pending-trackers list _fill_rd_slots regenerates on every loop
iteration: trackers whose manual scrape has started and whose candidate
list still has unattempted entries (the source also tests list truthiness,
hence the explicit nonemptiness conjunct). -/
def pendingTrackers (st : EngineState) : List ItemTracker :=
  (st.itemTrackers.map (fun p => p.2)).filter fun tr =>
    tr.manualScrapeStarted && !tr.streams.isEmpty &&
      decide (tr.streamIndex < tr.streams.length)

/-- TRCMonitor._fill_rd_slots.  While below the global cap, picks the next
pending tracker round-robin (advancing the cursor), attempts one stream
add, and writes the mutated tracker back.  The loop body's remote responses
come from `oracles` indexed by iteration; `fuel` bounds the iteration count
(the source's loop terminates because every attempt consumes a candidate).
An empty pending list breaks out of the loop. -/
def fillRdSlots (cfg : Config) (oracles : Nat → TryAddOracle) (now : Int) :
    Nat → EngineState → Nat → EngineState
  | 0, st, _ => st
  | fuel + 1, st, k =>
    if cfg.maxActiveRdDownloads ≤ st.rdDownloads.length then st
    else
      let pending := pendingTrackers st
      match pending.get? (st.rrIndex % pending.length) with
      | none => st
      | some tracker =>
        let st1 : EngineState :=
          { st with rrIndex := (st.rrIndex + 1) % pending.length }
        let r := tryAddOneStream (oracles k) now st1.rdDownloads tracker
        let st2 : EngineState :=
          { st1 with rdDownloads := r.rdDownloads,
                     itemTrackers :=
                       alInsert st1.itemTrackers tracker.itemId r.tracker }
        fillRdSlots cfg oracles now fuel st2 (k + 1)

/-- Remote responses consumed by the completion-handling block of
_monitor_rd_downloads: the fresh scrape (none models a raised exception),
the remove/add/retry outcomes, and the get_item_by_ids resolution. -/
structure CompletionOracle where
  scrapeResult : Option (List Stream) := none
  removeOk : Bool := true
  addOk : Bool := true
  retryOk : Bool := true
  foundItem : Option MediaItem := none
deriving DecidableEq

/-- Result of handling one completed download: Library calls issued and the
updated processed set (the source also retires the download tracker). -/
structure CompletionResult where
  calls : List RivenCall
  processedItems : List String
deriving DecidableEq

/-- The `torrent.is_complete` branch of TRCMonitor._monitor_rd_downloads
(lines 799-882): re-scrape the item (with parent ids for seasons/episodes),
and if a scraped stream matches the completed infohash case-insensitively,
reapply through the Library: for a real item id remove_item, then add_item
with the item's own external ids, then retry_item (remove failure still
proceeds to add and retry); for a pseudo id add_item with the scrape ids
then resolve-and-retry.  A non-match falls back to add_item plus
resolve-and-retry.  In every case the item key is recorded as processed. -/
def handleCompletedDownload (download : RDDownloadTracker)
    (o : CompletionOracle) (processed : List String) : CompletionResult :=
  let item := download.itemTracker.item
  let completedInfohash := download.infohash
  let scrapeTmdb := (scrapeIdsOf item).1
  let scrapeTvdb := (scrapeIdsOf item).2
  let mediaType := mediaTypeOf item
  let scrapeCall :=
    RivenCall.scrapeItem scrapeTmdb scrapeTvdb item.imdbId mediaType
  let innerCalls : List RivenCall :=
    match o.scrapeResult with
    | none => [scrapeCall]
    | some streams =>
      let foundMatch :=
        streams.any (fun s => strLower s.infohash == strLower completedInfohash)
      if foundMatch then
        if !(strStartsWith item.id "tmdb:" || strStartsWith item.id "tvdb:") then
          if o.removeOk then
            [scrapeCall, RivenCall.removeItem item.id,
              RivenCall.addItem item.tmdbId item.tvdbId mediaType,
              RivenCall.retryItem item.id]
          else
            [scrapeCall, RivenCall.removeItem item.id,
              RivenCall.addItem item.tmdbId item.tvdbId mediaType,
              RivenCall.retryItem item.id]
        else
          [scrapeCall, RivenCall.addItem scrapeTmdb scrapeTvdb mediaType,
              RivenCall.getItemByIds scrapeTmdb scrapeTvdb] ++
            (match o.foundItem with
              | some p => [RivenCall.retryItem p.id]
              | none => [])
      else
        [scrapeCall, RivenCall.addItem scrapeTmdb scrapeTvdb mediaType,
            RivenCall.getItemByIds scrapeTmdb scrapeTvdb] ++
          (match o.foundItem with
            | some fi => [RivenCall.retryItem fi.id]
            | none => [])
  ⟨innerCalls, listInsertNew processed download.itemTracker.itemId⟩

/-- The tracker well-formedness the spec states for every ItemTracker:
stream_index stays within the candidate list and the candidate list within
the max_rd_torrents cap. -/
def trackerInv (cfg : Config) (t : ItemTracker) : Prop :=
  t.streamIndex ≤ t.streams.length ∧ t.streams.length ≤ cfg.maxRdTorrents

/-- Concrete fixtures for evaluating the model on explicit inputs. -/
def c1Item : MediaItem :=
  { id := "item1", title := "Test Movie", state := "Failed", type := "movie",
    tmdbId := some "12345" }

def c1Tracker : ItemTracker :=
  { itemId := "item1", item := c1Item, manualScrapeStarted := true,
    streams := [{ infohash := "aaa111", rawTitle := "Test.Movie.1080p",
                  rank := 5 }],
    streamIndex := 0 }

def c1State : EngineState :=
  { itemTrackers := [("item1", c1Tracker)], rdDownloads := [],
    processedItems := [], rrIndex := 0 }

def c1Oracle : Nat → TryAddOracle := fun _ =>
  { addMagnet := AddMagnetOutcome.ok (some "t1"),
    polls := [some { id := "t1", filename := "f", hash := "aaa111",
                     status := "waiting_files_selection", progress := 0,
                     bytes := 0 }],
    selectOk := true }

def c2Item : MediaItem :=
  { id := "item2", title := "Old Movie", state := "Failed", type := "movie",
    tmdbId := some "22" }

def c2Tracker : ItemTracker :=
  { itemId := "item2", item := c2Item, manualScrapeStarted := true,
    streams := [{ infohash := "bbb222", rawTitle := "Old.Movie.1080p",
                  rank := 3 }],
    streamIndex := 0 }

def c2State : EngineState :=
  { itemTrackers := [("item2", c2Tracker)], rdDownloads := [],
    processedItems := ["item2"], rrIndex := 0 }

def c2Oracle : Nat → TryAddOracle := fun _ =>
  { addMagnet := AddMagnetOutcome.ok (some "t2"),
    polls := [some { id := "t2", filename := "f", hash := "bbb222",
                     status := "waiting_files_selection", progress := 0,
                     bytes := 0 }],
    selectOk := true }

def c2wState : ScanState :=
  { itemTrackers := [("item2", c2Tracker)], processedItems := ["item2"] }

def c3Item : MediaItem :=
  { id := "item1", title := "Test Movie", state := "Failed", type := "movie",
    tmdbId := some "12345" }

def c3Download : RDDownloadTracker :=
  { torrentId := "torrent1", infohash := "ABC123",
    itemTracker := { itemId := "item1", item := c3Item }, streamIndex := 0,
    startedAt := 0 }

def c3Oracle : CompletionOracle :=
  { scrapeResult := some [{ infohash := "abc123",
                            rawTitle := "Test.Movie.1080p", rank := 9 }],
    removeOk := false, addOk := true, retryOk := true, foundItem := none }

def c4Tracker : ItemTracker :=
  { itemId := "item4", item := { id := "item4", title := "Cached Movie",
                                 state := "Failed", type := "movie" },
    manualScrapeStarted := true,
    streams := [{ infohash := "ddd444", rawTitle := "Cached.Movie.1080p",
                  rank := 7 }],
    streamIndex := 0 }

def c4Torrent : RDTorrent :=
  { id := "t2", filename := "cached.mkv", hash := "ddd444",
    status := "downloaded", progress := 100, bytes := 1000 }

def c4Oracle : TryAddOracle :=
  { addMagnet := AddMagnetOutcome.ok (some "t2"), polls := [some c4Torrent],
    selectOk := true }

def c4OracleSelFail : TryAddOracle :=
  { addMagnet := AddMagnetOutcome.ok (some "t2"), polls := [some c4Torrent],
    selectOk := false }

def c5State0 : PersistState :=
  { itemTrackers := [("a", "rec1")], rdDownloads := [],
    processedItems := ["p"] }

def c6Item : MediaItem :=
  { id := "m1", title := "Retry Movie", state := "Failed", type := "movie",
    tmdbId := some "7" }

def c6Tracker : ItemTracker :=
  { itemId := "m1", item := c6Item }

def c6State : ScanState :=
  { itemTrackers := [("m1", c6Tracker)], processedItems := [] }

def c6Oracle : ScanOracle :=
  { removeOk := false, addOk := true, scrapeResult := none }

def c6wPids : ParentIds :=
  { tmdbId := some "244418" }

def c6wItem : MediaItem :=
  { id := "ep1", title := "The Bear", state := "Failed", type := "episode",
    parentTitle := some "The Bear", seasonNumber := some 1,
    episodeNumber := some 2, parentIds := some c6wPids }

def c6wKey : String :=
  parentKeyOf (some "244418") none

def c6wTracker : ItemTracker :=
  { itemId := c6wKey,
    item := { id := c6wKey, title := "The Bear", state := "Failed",
              type := "show", tmdbId := some "244418" } }

def c6wState : ScanState :=
  { itemTrackers := [(c6wKey, c6wTracker)], processedItems := [] }

def c7TrackedIds : List String := ["r3", "r4", "r5"]

def c7Torrent (i : String) (p : Rat) : RDTorrent :=
  { id := i, filename := "f" ++ i, hash := i, status := "downloading",
    progress := p, bytes := 0 }

def c7Torrents : List RDTorrent :=
  [c7Torrent "r3" 5, c7Torrent "r1" 2, c7Torrent "r4" 40, c7Torrent "r2" 10,
    c7Torrent "r5" 80]

def c8Tracker : ItemTracker :=
  { itemId := "item8", item := { id := "item8", title := "Bound Movie",
                                 state := "Failed", type := "movie" },
    manualScrapeStarted := true,
    streams := [{ infohash := "eee555", rawTitle := "Bound.Movie.1080p",
                  rank := 1 }],
    streamIndex := 0 }

def c8Oracle : TryAddOracle :=
  { addMagnet := AddMagnetOutcome.otherErr, polls := [], selectOk := true }

def c9Parse : String → Option Int := fun s =>
  if s = "2999-01-01T00:00:00" then some 1000 else none

def c9Item : MediaItem :=
  { id := "future1", title := "Future Episode", state := "Failed",
    type := "movie", airedAt := some "2999-01-01 00:00:00.105213" }

def c9State : ScanState :=
  { itemTrackers := [], processedItems := [] }

def c10Torrent : RDTorrent :=
  { id := "torrent1", filename := "test.mkv", hash := "abc123",
    status := "dead", progress := 0, bytes := 1000 }

theorem alInsert_length_le {α : Type} (l : List (String × α)) (k : String)
    (v : α) : (alInsert l k v).length ≤ l.length + 1 := by
  unfold alInsert
  split
  · simp
  · simp

theorem mem_alInsert {α : Type} {l : List (String × α)} {k : String} {v : α}
    {q : String × α} (hq : q ∈ alInsert l k v) : q ∈ l ∨ q = (k, v) := by
  unfold alInsert at hq
  split at hq
  · rcases List.mem_map.mp hq with ⟨p, hp, he⟩
    by_cases hpk : (p.1 == k) = true
    · right
      rw [← he]
      simp [hpk]
    · left
      rw [← he]
      simpa [hpk] using hp
  · rcases List.mem_append.mp hq with h | h
    · exact Or.inl h
    · right
      simpa using h

theorem mem_listInsertNew_self (l : List String) (k : String) :
    k ∈ listInsertNew l k := by
  unfold listInsertNew
  split
  · assumption
  · simp

theorem lexLe_total (a b : Nat × Rat) : lexLe a b ∨ lexLe b a := by
  unfold lexLe
  rcases lt_trichotomy a.1 b.1 with h | h | h
  · exact Or.inl (Or.inl h)
  · rcases le_total a.2 b.2 with g | g
    · exact Or.inl (Or.inr ⟨h, g⟩)
    · exact Or.inr (Or.inr ⟨h.symm, g⟩)
  · exact Or.inr (Or.inl h)

theorem lexLe_trans {a b c : Nat × Rat} (hab : lexLe a b) (hbc : lexLe b c) :
    lexLe a c := by
  unfold lexLe at *
  rcases hab with h | ⟨h1, h2⟩ <;> rcases hbc with g | ⟨g1, g2⟩
  · exact Or.inl (lt_trans h g)
  · exact Or.inl (g1 ▸ h)
  · exact Or.inl (h1 ▸ g)
  · exact Or.inr ⟨h1.trans g1, le_trans h2 g2⟩

theorem tryAdd_downloads_le (o : TryAddOracle) (now : Int)
    (dls : List (String × RDDownloadTracker)) (tracker : ItemTracker) :
    (tryAddOneStream o now dls tracker).rdDownloads.length ≤ dls.length + 1 := by
  unfold tryAddOneStream
  split
  · simp
  · split
    · simp
    · rcases ham : o.addMagnet with tid | _ | _
      · rcases tid with _ | tid
        · simp [ham]
        · simp only [ham]
          split
          · split
            · simpa using alInsert_length_le dls tid _
            · simp
          · simp
      · simp [ham]
      · simp [ham]

/-- Claim C1: the slot-filling loop preserves the global cap on
rd_downloads, and the single insertion in _try_add_one_stream keeps the map
within the cap whenever it starts strictly below it (which is the only
situation in which the loop invokes it). -/
theorem c1_rd_downloads_cap (cfg : Config) (oracles : Nat → TryAddOracle)
    (now : Int) :
    (∀ (o : TryAddOracle) (dls : List (String × RDDownloadTracker))
        (tracker : ItemTracker),
        dls.length < cfg.maxActiveRdDownloads →
        (tryAddOneStream o now dls tracker).rdDownloads.length ≤
          cfg.maxActiveRdDownloads) ∧
    (∀ (fuel k : Nat) (st : EngineState),
        st.rdDownloads.length ≤ cfg.maxActiveRdDownloads →
        (fillRdSlots cfg oracles now fuel st k).rdDownloads.length ≤
          cfg.maxActiveRdDownloads) := by
  constructor
  · intro o dls tracker h
    have hle := tryAdd_downloads_le o now dls tracker
    omega
  · intro fuel
    induction fuel with
    | zero =>
      intro k st h
      exact h
    | succ n ih =>
      intro k st h
      simp only [fillRdSlots]
      split
      · exact h
      · rename_i hlt
        split
        · exact h
        · rename_i tracker hget
          apply ih
          have hle := tryAdd_downloads_le (oracles k) now st.rdDownloads tracker
          simp only
          omega

/-- Claim C1 witness: a concrete slot-filling run from an empty download
map stays within the default cap of 3. -/
theorem c1_rd_downloads_cap_witness :
    (fillRdSlots {} c1Oracle 0 1 c1State 0).rdDownloads.length ≤
      ({} : Config).maxActiveRdDownloads :=
  (c1_rd_downloads_cap {} c1Oracle 0).2 1 0 c1State (by decide)

/-- Claim C2 counterexample: at a state whose key "item2" is already in
processed_items, one slot-filling iteration still mutates the tracker for
"item2" (its stream_index advances from 0 to 1) and places its candidate in
a debrid slot, with no fresh problem-scan involved: the claim's universal
no-mutation guarantee for processed keys fails on _fill_rd_slots. -/
theorem c2_processed_items_counterexample :
    "item2" ∈ c2State.processedItems ∧
    (alGet c2State.itemTrackers "item2").map ItemTracker.streamIndex =
      some 0 ∧
    (alGet (fillRdSlots {} c2Oracle 0 1 c2State 0).itemTrackers
        "item2").map ItemTracker.streamIndex = some 1 ∧
    (fillRdSlots {} c2Oracle 0 1 c2State 0).rdDownloads.length = 1 := by
  decide

/-- Claim C2 (amended): the processed-items guard suppresses re-scraping
only: for a key already in processed_items, _start_manual_scrape issues no
Library call and leaves the candidate list, stream_index and the processed
set unchanged (it does still set manual_scrape_started and persist the
tracker); trackers of processed keys may however still be mutated by slot
filling, which consumes remaining pending candidates without consulting
processed_items. -/
theorem c2_processed_scrape_guard (cfg : Config) (o : ScanOracle)
    (st : ScanState) (tracker : ItemTracker)
    (hmem : tracker.item.id ∈ st.processedItems) :
    startManualScrape cfg o st tracker =
      ⟨{ st with itemTrackers := (alInsert st.itemTrackers tracker.itemId
          { tracker with manualScrapeStarted := true }) }, []⟩ := by
  unfold startManualScrape
  simp [hmem]

/-- Claim C2 witness: the amended guard evaluated at a concrete processed
item. -/
theorem c2_processed_scrape_guard_witness :
    startManualScrape {} {} c2wState c2Tracker =
      ⟨{ c2wState with itemTrackers := (alInsert c2wState.itemTrackers
          "item2" { c2Tracker with manualScrapeStarted := true }) }, []⟩ :=
  c2_processed_scrape_guard {} {} c2wState c2Tracker (by decide)

/-- Claim C4 (code bug): when get_torrent_info reports the torrent as
`downloaded` right after add_magnet, _wait_for_file_selection returns True
(its own comment reads "Already cached! No need to select files"), yet
_try_add_one_stream then calls select_files unconditionally on that
torrent; the download tracker is created only when that call succeeds, and
when it fails the already-cached torrent is deleted. -/
theorem c4_select_files_called_on_cached :
    (tryAddOneStream c4Oracle 0 [] c4Tracker).rdCalls =
      [RDCall.addMagnet "magnet:?xt=urn:btih:ddd444",
        RDCall.selectFiles "t2" "all"] ∧
    (tryAddOneStream c4Oracle 0 [] c4Tracker).rdDownloads.length = 1 ∧
    (tryAddOneStream c4OracleSelFail 0 [] c4Tracker).rdCalls =
      [RDCall.addMagnet "magnet:?xt=urn:btih:ddd444",
        RDCall.selectFiles "t2" "all", RDCall.deleteTorrent "t2"] ∧
    (tryAddOneStream c4OracleSelFail 0 [] c4Tracker).rdDownloads = [] := by
  decide

/-- Claim C8: the tracker bounds 0 ≤ stream_index ≤ len(streams) ≤
max_rd_torrents are preserved: every tracker record _start_manual_scrape
writes is either an untouched pre-existing one or satisfies the bounds; the
successful scrape path stores exactly the rank-sorted list truncated to the
cap with the index reset to 0; _try_add_one_stream preserves the bounds and
leaves the tracker untouched (in particular never increments the index)
when the index is not strictly below the list length. -/
theorem c8_stream_index_bounds (cfg : Config) :
    (∀ (o : ScanOracle) (st : ScanState) (tracker : ItemTracker),
        trackerInv cfg tracker →
        ∀ p ∈ (startManualScrape cfg o st tracker).state.itemTrackers,
          p ∈ st.itemTrackers ∨ trackerInv cfg p.2) ∧
    (∀ (o : ScanOracle) (st : ScanState) (tracker : ItemTracker)
        (streams : List Stream),
        o.scrapeResult = some streams →
        tracker.item.id ∉ st.processedItems →
        ((streams.insertionSort rankGe).take cfg.maxRdTorrents).isEmpty =
          false →
        (startManualScrape cfg o st tracker).state.itemTrackers =
          alInsert
            (alInsert st.itemTrackers tracker.itemId
              ({ tracker with manualScrapeStarted := true }))
            tracker.itemId
            ({ tracker with
                manualScrapeStarted := true,
                streams := (streams.insertionSort rankGe).take cfg.maxRdTorrents,
                streamIndex := 0 })) ∧
    (∀ (o : TryAddOracle) (now : Int)
        (dls : List (String × RDDownloadTracker)) (tracker : ItemTracker),
        trackerInv cfg tracker →
        trackerInv cfg (tryAddOneStream o now dls tracker).tracker) ∧
    (∀ (o : TryAddOracle) (now : Int)
        (dls : List (String × RDDownloadTracker)) (tracker : ItemTracker),
        tracker.streams.length ≤ tracker.streamIndex →
        (tryAddOneStream o now dls tracker).tracker = tracker) := by
  refine ⟨?_, ?_, ?_, ?_⟩
  · intro o st tracker hinv p hp
    unfold startManualScrape at hp
    dsimp only at hp
    split at hp
    · rcases mem_alInsert hp with h | h
      · exact Or.inl h
      · right
        rw [h]
        exact hinv
    · split at hp
      · rcases mem_alInsert hp with h | h
        · exact Or.inl h
        · right
          rw [h]
          exact hinv
      · split at hp
        · rcases mem_alInsert hp with h | h
          · exact Or.inl h
          · right
            rw [h]
            exact hinv
        · rcases mem_alInsert hp with h | h
          · rcases mem_alInsert h with h2 | h2
            · exact Or.inl h2
            · right
              rw [h2]
              exact hinv
          · right
            rw [h]
            refine ⟨Nat.zero_le _, ?_⟩
            exact List.length_take_le _ _
  · intro o st tracker streams hscrape hmem hne
    unfold startManualScrape
    simp [hmem, hscrape, hne]
  · intro o now dls tracker hinv
    unfold tryAddOneStream
    split
    · exact hinv
    · rename_i hlt
      split
      · exact hinv
      · refine ⟨?_, hinv.2⟩
        dsimp only
        omega
  · intro o now dls tracker hge
    unfold tryAddOneStream
    rw [if_pos hge]

/-- Claim C8 witness: the bounds evaluated through a concrete
_try_add_one_stream attempt. -/
theorem c8_stream_index_bounds_witness :
    trackerInv {} (tryAddOneStream c8Oracle 0 [] c8Tracker).tracker :=
  (c8_stream_index_bounds {}).2.2.1 c8Oracle 0 [] c8Tracker
    (by unfold trackerInv; decide)

/-- Claim C3: when a monitored torrent completes for a real Library item
(id not of the pseudo tmdb:/tvdb: form) and the fresh scrape contains a
stream whose infohash matches case-insensitively, the engine issues exactly
scrape_item, remove_item(id), add_item(item external ids, type),
retry_item(id) in that order — the same sequence whether or not remove_item
succeeds — and records the item key as processed. -/
theorem c3_reapply_real_match (download : RDDownloadTracker)
    (o : CompletionOracle) (processed : List String)
    (streams : List Stream) (hscrape : o.scrapeResult = some streams)
    (hmatch : (streams.any fun s =>
        strLower s.infohash == strLower download.infohash) = true)
    (hreal : (strStartsWith download.itemTracker.item.id "tmdb:" ||
        strStartsWith download.itemTracker.item.id "tvdb:") = false) :
    (handleCompletedDownload download o processed).calls =
      [RivenCall.scrapeItem (scrapeIdsOf download.itemTracker.item).1
          (scrapeIdsOf download.itemTracker.item).2
          download.itemTracker.item.imdbId
          (mediaTypeOf download.itemTracker.item),
        RivenCall.removeItem download.itemTracker.item.id,
        RivenCall.addItem download.itemTracker.item.tmdbId
          download.itemTracker.item.tvdbId
          (mediaTypeOf download.itemTracker.item),
        RivenCall.retryItem download.itemTracker.item.id] ∧
    download.itemTracker.itemId ∈
      (handleCompletedDownload download o processed).processedItems := by
  constructor
  · unfold handleCompletedDownload
    simp only [hscrape, hmatch, hreal]
    simp
  · unfold handleCompletedDownload
    dsimp only
    exact mem_listInsertNew_self _ _

/-- Claim C3 witness: the reapplication sequence evaluated at a concrete
completed movie download whose scrape matches (with remove_item failing,
exercising the remove-failure path). -/
theorem c3_reapply_real_match_witness :
    (handleCompletedDownload c3Download c3Oracle []).calls =
      [RivenCall.scrapeItem (some "12345") none none "movie",
        RivenCall.removeItem "item1",
        RivenCall.addItem (some "12345") none "movie",
        RivenCall.retryItem "item1"] ∧
    "item1" ∈ (handleCompletedDownload c3Download c3Oracle []).processedItems :=
  c3_reapply_real_match c3Download c3Oracle [] _ rfl (by decide) (by decide)

/-- Claim C9: an item whose aired_at parses to a strictly future instant is
skipped by the problem-scan with no state change and no Library call, while
a missing or unparseable aired_at is treated as released. -/
theorem c9_release_gating :
    (∀ (cfg : Config) (parseIso : String → Option Int) (now : Int)
        (o : ScanOracle) (st : ScanState) (queued : List String)
        (item : MediaItem) (s : String) (t : Int),
        item.airedAt = some s →
        parseIso (airedTransform s) = some t →
        now < t →
        processOneItem cfg parseIso now o st queued item =
          ⟨st, queued, []⟩) ∧
    (∀ (parseIso : String → Option Int) (now : Int) (item : MediaItem),
        item.airedAt = none → isReleased parseIso now item = true) ∧
    (∀ (parseIso : String → Option Int) (now : Int) (item : MediaItem)
        (s : String),
        item.airedAt = some s → parseIso (airedTransform s) = none →
        isReleased parseIso now item = true) := by
  refine ⟨?_, ?_, ?_⟩
  · intro cfg parseIso now o st queued item s t hair hparse hfut
    have hrel : isReleased parseIso now item = false := by
      unfold isReleased
      rw [hair]
      dsimp only
      rw [hparse]
      simp
      omega
    unfold processOneItem
    rw [hrel]
    simp
  · intro parseIso now item hair
    unfold isReleased
    rw [hair]
  · intro parseIso now item s hair hparse
    unfold isReleased
    rw [hair]
    dsimp only
    rw [hparse]

/-- Claim C9 witness: a concrete unreleased item (aired in 2999 under a
parser that resolves it to a future instant) is skipped untouched. -/
theorem c9_release_gating_witness :
    processOneItem {} c9Parse 0 {} c9State [] c9Item = ⟨c9State, [], []⟩ :=
  c9_release_gating.1 {} c9Parse 0 {} c9State [] c9Item
    "2999-01-01 00:00:00.105213" 1000 rfl (by decide) (by decide)

theorem statusIsActive_disjoint {s : String}
    (h : statusIsActive s = true) :
    statusIsFailed s = false ∧ statusIsStalled s = false ∧
      statusIsWaitingSelection s = false := by
  unfold statusIsActive at h
  simp only [Bool.or_eq_true, beq_iff_eq] at h
  rcases h with (((h | h) | h) | h) | h <;> subst h <;>
    exact ⟨rfl, rfl, rfl⟩

theorem statusIsWaiting_disjoint {s : String}
    (h : statusIsWaitingSelection s = true) :
    statusIsFailed s = false ∧ statusIsStalled s = false := by
  unfold statusIsWaitingSelection at h
  simp only [beq_iff_eq] at h
  subst h
  exact ⟨rfl, rfl⟩

/-- Claim C10: the pre-cap cleanup sweep deletes a tracked torrent only
when it is failed (magnet_error/error/virus) or dead; a tracked torrent
that is waiting for selection or actively downloading is never deleted,
because the orphan and stuck rules apply only to untracked ids. -/
theorem c10_cleanup_tracked_safety (cfg : Config)
    (parseAdded : String → Option Int) (now : Int)
    (trackedIds : List String) (t : RDTorrent) :
    (t.id ∈ trackedIds →
      cleanupShouldDelete cfg parseAdded now trackedIds t = true →
      statusIsFailed t.status = true ∨ statusIsStalled t.status = true) ∧
    (t.id ∈ trackedIds →
      (statusIsWaitingSelection t.status = true ∨
        statusIsActive t.status = true) →
      cleanupShouldDelete cfg parseAdded now trackedIds t = false) := by
  constructor
  · intro hmem hdel
    by_cases h1 : statusIsFailed t.status = true
    · exact Or.inl h1
    · by_cases h2 : statusIsStalled t.status = true
      · exact Or.inr h2
      · exfalso
        simp only [cleanupShouldDelete, h1, h2, hmem] at hdel
        simp at hdel
  · intro hmem hws
    rcases hws with hw | ha
    · obtain ⟨h1, h2⟩ := statusIsWaiting_disjoint hw
      simp [cleanupShouldDelete, h1, h2, hw, hmem]
    · obtain ⟨h1, h2, h3⟩ := statusIsActive_disjoint ha
      simp [cleanupShouldDelete, h1, h2, h3, ha, hmem]

/-- Claim C10 witness: a tracked dead torrent is deleted, and the theorem
certifies the deletion is due to its dead status. -/
theorem c10_cleanup_tracked_safety_witness :
    statusIsFailed c10Torrent.status = true ∨
      statusIsStalled c10Torrent.status = true :=
  (c10_cleanup_tracked_safety {} (fun _ => none) 0 ["torrent1"]
      c10Torrent).1 (by decide) (by decide)

/-- Claim C6 counterexample: a due library-retry attempt on a real movie
whose remove_item fails issues the remove call but leaves retry_count at 0,
refuting the claim that every retry attempt increments retry_count
regardless of whether the remove or add calls succeed. -/
theorem c6_retry_increment_counterexample :
    (handleProblemItem {} 1000 c6Oracle c6State c6Tracker).calls =
      [RivenCall.removeItem "m1"] ∧
    (alGet (handleProblemItem {} 1000 c6Oracle c6State
        c6Tracker).state.itemTrackers "m1").map ItemTracker.retryCount =
      some 0 := by
  decide

/-- Claim C6 (amended): a due retry for a movie or real show is remove_item
followed by add_item (the add is attempted only when the remove succeeds),
and retry_count is incremented only when both calls succeed; a due retry
for a pseudo-tracker (parent show) is add_item only, with retry_count
incremented unconditionally before the add. -/
theorem c6_retry_shapes (cfg : Config) (now : Int) (o : ScanOracle) :
    (∀ (st : ScanState) (tracker : ItemTracker),
        tracker.item.state ∈ cfg.problemStates →
        cfg.skipRivenRetry = false →
        tracker.retryCount < cfg.maxRivenRetries →
        retryDue now tracker cfg = true →
        (handleProblemItem cfg now o st tracker).calls =
          RivenCall.removeItem tracker.item.id ::
            (if o.removeOk then
              [RivenCall.addItem tracker.item.tmdbId tracker.item.tvdbId
                (mediaTypeOf tracker.item)]
            else []) ∧
        (handleProblemItem cfg now o st tracker).state.itemTrackers =
          (if o.removeOk && o.addOk then
            (alInsert st.itemTrackers tracker.itemId
              { tracker with retryCount := tracker.retryCount + 1,
                             lastRetry := some now })
          else st.itemTrackers)) ∧
    (∀ (st : ScanState) (queued : List String) (item : MediaItem)
        (pids : ParentIds) (ptr : ItemTracker),
        item.parentIds = some pids →
        ¬(pids.tmdbId = none ∧ pids.tvdbId = none) →
        parentKeyOf pids.tmdbId pids.tvdbId ∉ queued →
        alGet st.itemTrackers (parentKeyOf pids.tmdbId pids.tvdbId) =
          some ptr →
        cfg.skipRivenRetry = false →
        ptr.retryCount < cfg.maxRivenRetries →
        retryDue now ptr cfg = true →
        (handleSeasonEpisode cfg now o st queued item).calls =
          [RivenCall.addItem pids.tmdbId pids.tvdbId "show"] ∧
        (handleSeasonEpisode cfg now o st queued item).state.itemTrackers =
          (alInsert st.itemTrackers (parentKeyOf pids.tmdbId pids.tvdbId)
            { ptr with retryCount := ptr.retryCount + 1,
                       lastRetry := some now })) := by
  constructor
  · intro st tracker hstate hskip hcnt hdue
    unfold handleProblemItem
    rw [if_neg (not_not_intro hstate), hskip]
    simp only [Bool.false_eq_true, if_false]
    rw [if_neg (by omega : ¬ cfg.maxRivenRetries ≤ tracker.retryCount)]
    rw [if_pos hdue]
    cases hr : o.removeOk <;> cases ha : o.addOk <;> simp
  · intro st queued item pids ptr hpids hne hq hget hskip hcnt hdue
    unfold handleSeasonEpisode
    rw [hpids]
    dsimp only
    rw [if_neg hne, if_neg hq]
    have hsome : (alGet st.itemTrackers
        (parentKeyOf pids.tmdbId pids.tvdbId)).isSome = true := by
      rw [hget]
      rfl
    rw [if_pos hsome, hget]
    dsimp only
    rw [hskip]
    simp only [Bool.false_eq_true, if_false]
    rw [if_neg (by omega : ¬ cfg.maxRivenRetries ≤ ptr.retryCount)]
    rw [if_pos hdue]
    exact ⟨rfl, rfl⟩

/-- Claim C6 witness: the pseudo-tracker retry evaluated on a concrete
failed episode whose parent show already has a tracker. -/
theorem c6_retry_shapes_witness :
    (handleSeasonEpisode {} 500 {} c6wState [] c6wItem).calls =
      [RivenCall.addItem (some "244418") none "show"] ∧
    (handleSeasonEpisode {} 500 {} c6wState [] c6wItem).state.itemTrackers =
      (alInsert c6wState.itemTrackers c6wKey
        { c6wTracker with retryCount := 1, lastRetry := some 500 }) :=
  (c6_retry_shapes {} 500 {}).2 c6wState [] c6wItem c6wPids c6wTracker rfl
    (by decide) (by decide) (by decide) rfl (by decide) (by decide)

/-- Claim C7: when the active torrents exceed the cap, cap enforcement
deletes exactly the excess, taken from the front of the stable ascending
sort on the (tracked-by-engine, progress) key, so every deleted torrent's
key is no greater than every kept one's: untracked low-progress torrents go
first and tracked high-progress torrents are preserved last. -/
theorem c7_excess_enforcement (cfg : Config) (trackedIds : List String)
    (allTorrents : List RDTorrent)
    (h : cfg.maxActiveRdDownloads <
      (allTorrents.filter fun t => statusIsActive t.status).length) :
    enforceMaxActiveTorrents cfg trackedIds allTorrents =
      ((allTorrents.filter fun t => statusIsActive t.status).insertionSort
          (cleanupKeyLe trackedIds)).take
        ((allTorrents.filter fun t => statusIsActive t.status).length -
          cfg.maxActiveRdDownloads) ∧
    (enforceMaxActiveTorrents cfg trackedIds allTorrents).length =
      (allTorrents.filter fun t => statusIsActive t.status).length -
        cfg.maxActiveRdDownloads ∧
    ∀ d ∈ enforceMaxActiveTorrents cfg trackedIds allTorrents,
      ∀ r ∈ ((allTorrents.filter fun t => statusIsActive t.status).insertionSort
          (cleanupKeyLe trackedIds)).drop
        ((allTorrents.filter fun t => statusIsActive t.status).length -
          cfg.maxActiveRdDownloads),
      cleanupKeyLe trackedIds d r := by
  have heq : enforceMaxActiveTorrents cfg trackedIds allTorrents =
      ((allTorrents.filter fun t => statusIsActive t.status).insertionSort
          (cleanupKeyLe trackedIds)).take
        ((allTorrents.filter fun t => statusIsActive t.status).length -
          cfg.maxActiveRdDownloads) := by
    unfold enforceMaxActiveTorrents
    rw [if_neg (by omega)]
  have hlen :
      ((allTorrents.filter fun t => statusIsActive t.status).insertionSort
        (cleanupKeyLe trackedIds)).length =
      (allTorrents.filter fun t => statusIsActive t.status).length :=
    (List.perm_insertionSort _ _).length_eq
  refine ⟨heq, ?_, ?_⟩
  · rw [heq, List.length_take]
    omega
  · intro d hd r hr
    rw [heq] at hd
    haveI : IsTotal RDTorrent (cleanupKeyLe trackedIds) :=
      ⟨fun a b => lexLe_total _ _⟩
    haveI : IsTrans RDTorrent (cleanupKeyLe trackedIds) :=
      ⟨fun a b c hab hbc => lexLe_trans hab hbc⟩
    have hsorted := List.sorted_insertionSort (cleanupKeyLe trackedIds)
      (allTorrents.filter fun t => statusIsActive t.status)
    unfold List.Sorted at hsorted
    rw [← List.take_append_drop
      ((allTorrents.filter fun t => statusIsActive t.status).length -
        cfg.maxActiveRdDownloads)
      ((allTorrents.filter fun t => statusIsActive t.status).insertionSort
        (cleanupKeyLe trackedIds))] at hsorted
    exact (List.pairwise_append.mp hsorted).2.2 d hd r hr

/-- Claim C7 witness: the spec's scenario — five active torrents, cap 3,
keys ascending as untracked 2 percent, untracked 10 percent, then tracked 5,
40, 80 percent — deletes exactly the two untracked low-progress torrents. -/
theorem c7_excess_enforcement_witness :
    enforceMaxActiveTorrents {} c7TrackedIds c7Torrents =
      [c7Torrent "r1" 2, c7Torrent "r2" 10] ∧
    (enforceMaxActiveTorrents {} c7TrackedIds c7Torrents).length = 2 :=
  ⟨by decide,
    (c7_excess_enforcement {} c7TrackedIds c7Torrents (by decide)).2.1⟩

/-- Claim C5 counterexample: the save performed by set_item_tracker is not
atomic: crashing right after its truncating open (prefix of length one of
its file operations) leaves an empty file, which is neither the previous
document nor the new one. -/
theorem c5_atomic_save_counterexample :
    ¬ atomicOps (serializeState c5State0)
      (serializeState (setItemTracker c5State0 "b" "rec2").1)
      (setItemTracker c5State0 "b" "rec2").2 := by
  intro h
  exact absurd (h 1) (by decide)

theorem str_empty_append (c : String) : "" ++ c = c := by
  cases c
  rfl

/-- Claim C5 (amended): every mutating State Store call that changes the
state synchronously writes the whole serialized document before returning
(remove/add calls that find nothing to change perform no write), and a
completed save leaves exactly the new document; but the write opens the
state file in truncate mode and rewrites it in place — there is no
write-to-temp-plus-rename — so a crash between the truncating open and the
completed write can corrupt (empty) a previously valid document. -/
theorem c5_mutators_flush (s : PersistState) (k v : String) :
    (setItemTracker s k v).2 = saveOps (setItemTracker s k v).1 ∧
    (setRdDownload s k v).2 = saveOps (setRdDownload s k v).1 ∧
    (removeItemTracker s k).2 =
      (if (alGet s.itemTrackers k).isSome then
        saveOps (removeItemTracker s k).1
      else []) ∧
    (removeRdDownload s k).2 =
      (if (alGet s.rdDownloads k).isSome then
        saveOps (removeRdDownload s k).1
      else []) ∧
    (addProcessedItem s k).2 =
      (if k ∈ s.processedItems then []
      else saveOps (addProcessedItem s k).1) ∧
    ∀ (oldC : String) (s2 : PersistState),
      fileAfterOps oldC (saveOps s2) = serializeState s2 := by
  refine ⟨rfl, rfl, ?_, ?_, ?_, ?_⟩
  · unfold removeItemTracker
    split <;> rfl
  · unfold removeRdDownload
    split <;> rfl
  · unfold addProcessedItem
    split <;> rfl
  · intro oldC s2
    simp only [saveOps, fileAfterOps]
    exact str_empty_append _

end TRC
